import Mathlib

/-
Verification of the access-control and session-policy engine of the
EDRS backend (files `ai_erp/rbac.py` and `ai_erp/models.py`).

The Python code is shallowly embedded: Django model rows become Lean
structures, the `UserERPProfile.DoesNotExist` exception that the code
catches becomes an `Option` on the profile field, and the ambient state
the code reads (the Django session store, the wall clock) is passed
explicitly.  Python string operations (`startswith`, `endswith`, `[:-1]`,
`split(',')[0]`) are modelled on the code-point list `String.data`,
matching Python's sequence-of-code-points semantics.
-/

namespace EDRS

/-- Python `s.startswith(p)`: `p` is a literal character-sequence prefix of `s`. -/
def pyStartsWith (s p : String) : Bool := p.data.isPrefixOf s.data

/-- Python `s.endswith(p)`: `p` is a literal character-sequence suffix of `s`. -/
def pyEndsWith (s p : String) : Bool := p.data.isSuffixOf s.data

/-- Python `s[:-1]`: drop the last character (empty string stays empty). -/
def pyDropLast (s : String) : String := String.mk s.data.dropLast

/-- Python `s.split(',')[0]`: the longest prefix of `s` before the first comma. -/
def pySplitFirst (s : String) : String := String.mk (s.data.takeWhile (fun c => c != ','))

/-- `ERPRole` row (`ai_erp/models.py`): a role code owning a list of
permission patterns and a dashboard redirect URL. -/
structure ERPRole where
  name : String
  code : String
  description : String
  permissions : List String
  redirect_url : String
deriving Repr, DecidableEq

/-- `ERPRole.has_permission` (`ai_erp/models.py` lines 28-35): global
wildcard, then exact membership or trailing-`*` pattern match. -/
def ERPRole.has_permission (role : ERPRole) (permission : String) : Bool :=
  if role.permissions.contains "*" then true
  else
    role.permissions.contains permission ||
      role.permissions.any (fun perm =>
        pyEndsWith perm "*" && pyStartsWith permission (pyDropLast perm))

/-- One value of the `access_hours` JSON map: a dict that may carry
`start` and `end` hour keys (absent keys modelled as `none`). -/
structure HoursEntry where
  startH : Option Nat
  endH : Option Nat
deriving Repr, DecidableEq

/-- `UserERPProfile` row (`ai_erp/models.py`): role reference (a non-null
foreign key), IP whitelist, per-weekday access-hours map (a Python dict,
modelled as an association list with unique keys), session ceiling and
engineering domains. -/
structure UserERPProfile where
  role : ERPRole
  ip_whitelist : List String
  access_hours : List (String × HoursEntry)
  max_concurrent_sessions : Nat
  primary_domain : String
  secondary_domains : List String
deriving Repr, DecidableEq

/-- `RejlersUser` row (`authentication/models.py`): Django user with a
superuser flag; `erp_profile` is `none` when accessing the related
profile would raise `UserERPProfile.DoesNotExist`.  `id` is the string
rendering of the user's UUID primary key (the code only ever compares
`str(user.id)`). -/
structure RejlersUser where
  id : String
  is_superuser : Bool
  erp_profile : Option UserERPProfile
deriving Repr, DecidableEq

/-- A request principal: either Django's `AnonymousUser` (for which
`is_authenticated` is `False` and `is_superuser` is `False`) or a real
`RejlersUser` row (for which `is_authenticated` is always `True`). -/
inductive Principal where
  | anonymous
  | user (u : RejlersUser)
deriving Repr, DecidableEq

/-- Django `user.is_authenticated`: `False` exactly for `AnonymousUser`. -/
def Principal.is_authenticated : Principal → Bool
  | .anonymous => false
  | .user _ => true

/-- Django `user.is_superuser`: `AnonymousUser.is_superuser` is hardcoded
`False`; for a row it is the stored flag. -/
def Principal.is_superuser : Principal → Bool
  | .anonymous => false
  | .user u => u.is_superuser

/-- Accessing `user.erp_profile` with the `DoesNotExist` case as `none`. -/
def Principal.erpProfile : Principal → Option UserERPProfile
  | .anonymous => none
  | .user u => u.erp_profile

/-- Python `str(user.id)`. -/
def Principal.idStr : Principal → String
  | .anonymous => ""
  | .user u => u.id

/-- A row of Django's session store: expiry instant and the decoded
`_auth_user_id` key (absent when the session is unauthenticated). -/
structure DjangoSession where
  expire_date : Nat
  auth_user_id : Option String
deriving Repr, DecidableEq

/-- The parts of `datetime.now()` the code reads: the lowercase `%A`
weekday name and the hour of day. -/
structure PyDateTime where
  weekday : String
  hour : Nat
deriving Repr, DecidableEq

/-- A Django request together with the ambient state the decorators
read: the principal, the two client-IP headers, the session-store rows
and the current time. -/
structure Request where
  user : Principal
  remote_addr : String
  x_forwarded_for : Option String
  sessions : List DjangoSession
  nowTime : Nat
  now : PyDateTime
deriving Repr, DecidableEq

/-- `RoleBasedAccessControl.get_user_role` (`ai_erp/rbac.py` lines 23-30):
the profile's role, or `None` when the profile does not exist. -/
def RoleBasedAccessControl.get_user_role (user : Principal) : Option ERPRole :=
  match user.erpProfile with
  | some profile => some profile.role
  | none => none

/-- `RoleBasedAccessControl.get_user_permissions` (lines 32-38): the
role's permission list, or `[]` with no role. -/
def RoleBasedAccessControl.get_user_permissions (user : Principal) : List String :=
  match RoleBasedAccessControl.get_user_role user with
  | some role => role.permissions
  | none => []

/-- `RoleBasedAccessControl.has_permission` (lines 40-64): deny
unauthenticated, allow superusers, then global wildcard, exact match and
trailing-`*` pattern loop over the user's permissions. -/
def RoleBasedAccessControl.has_permission (user : Principal) (permission : String) : Bool :=
  if !user.is_authenticated then false
  else if user.is_superuser then true
  else
    let permissions := RoleBasedAccessControl.get_user_permissions user
    if permissions.contains "*" then true
    else if permissions.contains permission then true
    else permissions.any (fun perm =>
      pyEndsWith perm "*" && pyStartsWith permission (pyDropLast perm))

/-- `SessionManager.check_concurrent_sessions` (`ai_erp/rbac.py` lines
177-201): filter the session store to unexpired rows, count those whose
decoded `_auth_user_id` equals `str(user.id)`, and require the count to
be strictly below the profile ceiling; with no profile, allow. -/
def SessionManager.check_concurrent_sessions (user : Principal)
    (sessions : List DjangoSession) (nowTime : Nat) : Bool :=
  match user.erpProfile with
  | none => true
  | some profile =>
    let max_sessions := profile.max_concurrent_sessions
    let active_sessions := sessions.filter (fun s => nowTime ≤ s.expire_date)
    let user_sessions :=
      active_sessions.countP (fun s => s.auth_user_id == some user.idStr)
    decide (user_sessions < max_sessions)

/-- `SessionManager.is_ip_allowed` (lines 203-216): allow every IP when
the whitelist is empty, otherwise require literal membership; with no
profile, allow. -/
def SessionManager.is_ip_allowed (user : Principal) (ip_address : String) : Bool :=
  match user.erpProfile with
  | none => true
  | some profile =>
    if profile.ip_whitelist.isEmpty then true
    else profile.ip_whitelist.contains ip_address

/-- `SessionManager.is_access_time_allowed` (lines 218-244): allow when
the `access_hours` dict is empty; else look up the current weekday and
compare the hour against `[start, end]` (defaults 0 and 23) inclusively;
a weekday absent from a non-empty dict yields `False`; with no profile,
allow. -/
def SessionManager.is_access_time_allowed (user : Principal) (now : PyDateTime) : Bool :=
  match user.erpProfile with
  | none => true
  | some profile =>
    if profile.access_hours.isEmpty then true
    else
      let weekday := now.weekday
      let current_hour := now.hour
      match profile.access_hours.lookup weekday with
      | some allowed_hours =>
        let start_hour := allowed_hours.startH.getD 0
        let end_hour := allowed_hours.endH.getD 23
        decide (start_hour ≤ current_hour ∧ current_hour ≤ end_hour)
      | none => false

/-- What a decorated view call can produce: an HTTP redirect, a
`JsonResponse` with a status code and payload fields, or the wrapped
view's own response. -/
inductive Response where
  | redirect (url : String)
  | json (status : Nat) (payload : List (String × String))
  | view
deriving Repr, DecidableEq

/-- `get_client_ip` (lines 277-284): first entry of a truthy
`HTTP_X_FORWARDED_FOR` header, else `REMOTE_ADDR`. -/
def get_client_ip (request : Request) : String :=
  match request.x_forwarded_for with
  | some xff => if xff = "" then request.remote_addr else pySplitFirst xff
  | none => request.remote_addr

/-- `require_permission` decorator (lines 85-104): 401 JSON for an
unauthenticated user, 403 JSON when the permission check fails, else the
wrapped view. -/
def require_permission (permission : String) (view_func : Request → Response)
    (request : Request) : Response :=
  if !request.user.is_authenticated then
    Response.json 401 [("error", "Authentication required"), ("redirect", "/login/")]
  else if !RoleBasedAccessControl.has_permission request.user permission then
    Response.json 403
      [("error", "Insufficient permissions"), ("required_permission", permission)]
  else view_func request

/-- `enhanced_login_required` decorator (lines 246-275): redirect
unauthenticated users to `/login/`, then concurrent-session check (429),
IP whitelist check (403 with the client IP), access-hours check (403),
else the wrapped view. -/
def enhanced_login_required (view_func : Request → Response)
    (request : Request) : Response :=
  if !request.user.is_authenticated then
    Response.redirect "/login/"
  else if !SessionManager.check_concurrent_sessions request.user
      request.sessions request.nowTime then
    Response.json 429
      [("error", "Maximum concurrent sessions exceeded"),
       ("action", "logout_other_sessions")]
  else
    let client_ip := get_client_ip request
    if !SessionManager.is_ip_allowed request.user client_ip then
      Response.json 403
        [("error", "Access denied from this IP address"), ("ip", client_ip)]
    else if !SessionManager.is_access_time_allowed request.user request.now then
      Response.json 403 [("error", "Access denied outside allowed hours")]
    else view_func request

/-- The `roles_config` literal of `create_default_roles` (`ai_erp/rbac.py`
lines 357-436): the six default roles with their exact permission lists. -/
def roles_config : List ERPRole :=
  [{ name := "Super Administrator", code := "SUPER_ADMIN",
     description := "Full system access and control",
     permissions := ["*"],
     redirect_url := "/ai-erp/admin-dashboard/" },
   { name := "Project Manager", code := "PROJECT_MANAGER",
     description := "Project management and oversight",
     permissions := ["project.*", "drawing.read", "drawing.comment", "drawing.approve",
       "simulation.read", "team.read", "reports.generate", "ai.query"],
     redirect_url := "/pm/dashboard/" },
   { name := "Senior Engineer", code := "SENIOR_ENGINEER",
     description := "Full engineering capabilities",
     permissions := ["drawing.*", "simulation.*", "ai.query", "ai.advanced",
       "project.read", "project.modify", "safety.analyze",
       "compliance.check", "reports.generate"],
     redirect_url := "/engineer/dashboard/" },
   { name := "Engineer", code := "ENGINEER",
     description := "Standard engineering access",
     permissions := ["drawing.read", "drawing.upload", "drawing.analyze", "drawing.comment",
       "simulation.create", "simulation.read", "simulation.run",
       "ai.query", "project.read", "reports.generate"],
     redirect_url := "/engineer/workspace/" },
   { name := "Analyst", code := "ANALYST",
     description := "Analysis and reporting access",
     permissions := ["drawing.read", "simulation.read", "ai.query",
       "reports.generate", "data.export", "project.read"],
     redirect_url := "/analyst/dashboard/" },
   { name := "Viewer", code := "VIEWER",
     description := "Read-only access to approved content",
     permissions := ["drawing.read", "simulation.read", "project.read", "reports.generate"],
     redirect_url := "/viewer/dashboard/" }]

/-- The `for role_config in roles_config` loop of `create_default_roles`:
`get_or_create(code=...)` keeps an existing row with that code untouched
and otherwise inserts the configured row, which is also appended to
`created_roles`. -/
def seedLoop : List ERPRole → List ERPRole × List ERPRole → List ERPRole × List ERPRole
  | [], acc => acc
  | cfg :: rest, (created, store) =>
    match store.find? (fun r => r.code == cfg.code) with
    | some _ => seedLoop rest (created, store)
    | none => seedLoop rest (created ++ [cfg], store ++ [cfg])

/-- `create_default_roles` (lines 357-436) over an explicit role table:
returns the newly created roles and the updated table. -/
def create_default_roles (store : List ERPRole) : List ERPRole × List ERPRole :=
  seedLoop roles_config ([], store)

/-- `True` when some role in the table carries the given code (the
condition under which `get_or_create` finds an existing row). -/
def hasCode (store : List ERPRole) (code : String) : Bool :=
  store.any (fun r => r.code == code)

/-- A role value with the given permission list and fixed metadata, for
concrete instances in the theorems below. -/
def mkRole (perms : List String) : ERPRole :=
  { name := "r", code := "ROLE", description := "role", permissions := perms,
    redirect_url := "/dashboard/" }

/-- A concrete unrestricted profile carrying the given role, for the
witnesses below. -/
def plainProfile (r : ERPRole) : UserERPProfile :=
  { role := r, ip_whitelist := [], access_hours := [],
    max_concurrent_sessions := 3, primary_domain := "upstream",
    secondary_domains := [] }

/-- A concrete non-superuser user row carrying the given profile. -/
def plainUser (p : UserERPProfile) : RejlersUser :=
  { id := "u1", is_superuser := false, erp_profile := some p }

/-- A concrete profile with the given access-hours map and no other
restrictions. -/
def hoursProfile (hs : List (String × HoursEntry)) : UserERPProfile :=
  { role := mkRole [], ip_whitelist := [], access_hours := hs,
    max_concurrent_sessions := 3, primary_domain := "upstream",
    secondary_domains := [] }

/-- A concrete principal restricted to Monday hours 9 through 17. -/
def mondayUser : Principal :=
  .user (plainUser (hoursProfile [("monday", { startH := some 9, endH := some 17 })]))

/-- A concrete user row without a profile (the `DoesNotExist` case). -/
def noProfileUser : RejlersUser :=
  { id := "u2", is_superuser := false, erp_profile := none }

/-- An unexpired session row of the `plainUser` principal (id `u1`). -/
def liveSession : DjangoSession := { expire_date := 100, auth_user_id := some "u1" }

/-- Session-store contents holding exactly two active sessions of `u1`
at instant 50, plus an expired one, an anonymous one and another user's. -/
def twoActive : List DjangoSession :=
  [liveSession, liveSession,
   { expire_date := 10, auth_user_id := some "u1" },
   { expire_date := 100, auth_user_id := none },
   { expire_date := 100, auth_user_id := some "u9" }]

/-- Session-store contents holding exactly three active sessions of `u1`
at instant 50. -/
def threeActive : List DjangoSession := liveSession :: twoActive

/-- The seeded `SUPER_ADMIN` role (global wildcard pattern). -/
def superAdminRole : ERPRole :=
  { name := "Super Administrator", code := "SUPER_ADMIN",
    description := "Full system access and control", permissions := ["*"],
    redirect_url := "/ai-erp/admin-dashboard/" }

/-- End-to-end scenario C profile: `SUPER_ADMIN` role behind the IP
allowlist `["10.0.0.1"]`. -/
def scenCProfile : UserERPProfile :=
  { role := superAdminRole, ip_whitelist := ["10.0.0.1"], access_hours := [],
    max_concurrent_sessions := 3, primary_domain := "upstream",
    secondary_domains := [] }

/-- End-to-end scenario C principal: a non-superuser row carrying
`scenCProfile`. -/
def scenCPrincipal : Principal :=
  .user { id := "sa", is_superuser := false, erp_profile := some scenCProfile }

/-- End-to-end scenario C request: source IP `10.0.0.5`. -/
def scenCRequest : Request :=
  { user := scenCPrincipal, remote_addr := "10.0.0.5", x_forwarded_for := none,
    sessions := [], nowTime := 0, now := { weekday := "monday", hour := 10 } }

/-- A wrapped view that just reports having run. -/
def viewOk : Request → Response := fun _ => Response.view

/-- A request by Django's `AnonymousUser`. -/
def anonRequest : Request :=
  { user := .anonymous, remote_addr := "1.2.3.4", x_forwarded_for := none,
    sessions := [], nowTime := 0, now := { weekday := "monday", hour := 10 } }

/-- A request by `u1` finding three of its sessions already active. -/
def busyRequest : Request :=
  { user := .user (plainUser (plainProfile (mkRole []))), remote_addr := "1.2.3.4",
    x_forwarded_for := none, sessions := threeActive, nowTime := 50,
    now := { weekday := "monday", hour := 10 } }

/-- A pre-existing role row that already carries the code `VIEWER` but
different content than the seed configuration. -/
def legacyViewer : ERPRole :=
  { name := "Old Viewer", code := "VIEWER", description := "legacy row",
    permissions := ["drawing.read"], redirect_url := "/old/" }

/-- Every string starts with the empty pattern, as in Python. -/
theorem pyStartsWith_empty (s : String) : pyStartsWith s "" = true := by
  have h : ("" : String).data = [] := rfl
  simp [pyStartsWith, h, List.isPrefixOf]

/-- Characterisation of `ERPRole.has_permission`: verbatim membership or
a trailing-`*` pattern whose stripped form is a character prefix. -/
theorem has_permission_iff (r : ERPRole) (P : String) :
    ERPRole.has_permission r P = true ↔
      P ∈ r.permissions ∨ ∃ pat ∈ r.permissions,
        pyEndsWith pat "*" = true ∧ pyStartsWith P (pyDropLast pat) = true := by
  unfold ERPRole.has_permission
  split
  · rename_i hstar
    have hmem : ("*" : String) ∈ r.permissions := by simpa using hstar
    have hdrop : pyDropLast "*" = "" := by decide
    simp only [true_iff]
    exact Or.inr ⟨"*", hmem, by decide, by rw [hdrop]; exact pyStartsWith_empty P⟩
  · simp [List.any_eq_true, Bool.and_eq_true]

end EDRS

namespace EDRS

/-- Claim C2: the pattern match succeeds iff the permission is a verbatim
member of the pattern list or some pattern ends in `*` and the permission
starts with that pattern minus its trailing `*`; the bare `*` matches
everything, `drawing.*` matches `drawing.read` but not `drawingx.read`,
an empty pattern list matches nothing, the result is order-independent,
and the decorator-side matcher agrees with the role-side matcher for an
authenticated non-superuser with a profile. -/
theorem pattern_match_spec :
    (∀ (r : ERPRole) (P : String),
      ERPRole.has_permission r P = true ↔
        P ∈ r.permissions ∨ ∃ pat ∈ r.permissions,
          pyEndsWith pat "*" = true ∧ pyStartsWith P (pyDropLast pat) = true)
    ∧ (∀ (u : RejlersUser) (prof : UserERPProfile) (P : String),
        u.is_superuser = false → u.erp_profile = some prof →
        RoleBasedAccessControl.has_permission (.user u) P =
          ERPRole.has_permission prof.role P)
    ∧ (∀ (r r' : ERPRole) (P : String), r.permissions.Perm r'.permissions →
        ERPRole.has_permission r P = ERPRole.has_permission r' P)
    ∧ (∀ P : String, ERPRole.has_permission (mkRole ["*"]) P = true)
    ∧ ERPRole.has_permission (mkRole ["drawing.*"]) "drawing.read" = true
    ∧ ERPRole.has_permission (mkRole ["drawing.*"]) "drawingx.read" = false
    ∧ (∀ P : String, ERPRole.has_permission (mkRole []) P = false) := by
  refine ⟨has_permission_iff, ?_, ?_, ?_, by decide, by decide, ?_⟩
  · intro u prof P hsuper hprof
    simp only [RoleBasedAccessControl.has_permission,
      RoleBasedAccessControl.get_user_permissions,
      RoleBasedAccessControl.get_user_role, Principal.is_authenticated,
      Principal.is_superuser, Principal.erpProfile, hsuper, hprof,
      ERPRole.has_permission, Bool.not_false, Bool.false_eq_true,
      if_false, if_true]
    cases h1 : prof.role.permissions.contains "*" <;> simp [h1]
  · intro r r' P hperm
    rw [Bool.eq_iff_iff, has_permission_iff, has_permission_iff]
    constructor
    · rintro (h | ⟨pat, hmem, he, hs⟩)
      · exact Or.inl (hperm.mem_iff.mp h)
      · exact Or.inr ⟨pat, hperm.mem_iff.mp hmem, he, hs⟩
    · rintro (h | ⟨pat, hmem, he, hs⟩)
      · exact Or.inl (hperm.mem_iff.mpr h)
      · exact Or.inr ⟨pat, hperm.mem_iff.mpr hmem, he, hs⟩
  · intro P
    rw [has_permission_iff]
    have hdrop : pyDropLast "*" = "" := by decide
    exact Or.inr ⟨"*", by simp [mkRole], by decide,
      by rw [hdrop]; exact pyStartsWith_empty P⟩
  · intro P
    rfl

/-- Claim C2 witness: the role-side and decorator-side matchers agree on
a concrete non-superuser principal. -/
theorem pattern_match_spec_witness :
    RoleBasedAccessControl.has_permission
        (.user (plainUser (plainProfile (mkRole ["drawing.*"])))) "drawing.read" =
      ERPRole.has_permission (mkRole ["drawing.*"]) "drawing.read" :=
  pattern_match_spec.2.1 (plainUser (plainProfile (mkRole ["drawing.*"])))
    (plainProfile (mkRole ["drawing.*"])) "drawing.read" rfl rfl

/-- Claim C5: for an authenticated non-superuser for whom no role is
resolvable, `has_permission` is `false` for every permission string; the
`DoesNotExist` case is the `none` branch of the total Lean function, so
absence of a profile is a returned denial, never a raised exception. -/
theorem has_permission_no_role_fail_closed (u : RejlersUser)
    (hsuper : u.is_superuser = false)
    (hrole : RoleBasedAccessControl.get_user_role (.user u) = none) :
    ∀ P : String, RoleBasedAccessControl.has_permission (.user u) P = false := by
  intro P
  simp only [RoleBasedAccessControl.has_permission,
    RoleBasedAccessControl.get_user_permissions, hrole,
    Principal.is_authenticated, Principal.is_superuser, hsuper]
  rfl

/-- Claim C5 witness: a concrete profileless non-superuser is denied a
concrete permission. -/
theorem has_permission_no_role_fail_closed_witness :
    RoleBasedAccessControl.has_permission
      (.user { id := "u2", is_superuser := false, erp_profile := none })
      "drawing.read" = false :=
  has_permission_no_role_fail_closed
    { id := "u2", is_superuser := false, erp_profile := none } rfl rfl
    "drawing.read"

/-- Claim C6: a principal flagged `is_superuser` is granted every
permission unconditionally (any superuser-flagged principal is a real
user row, hence authenticated, so the superuser branch fires). -/
theorem has_permission_superuser_override (u : Principal)
    (hsuper : u.is_superuser = true) :
    ∀ P : String, RoleBasedAccessControl.has_permission u P = true := by
  intro P
  cases u with
  | anonymous => simp [Principal.is_superuser] at hsuper
  | user v =>
    simp only [RoleBasedAccessControl.has_permission, Principal.is_authenticated,
      Principal.is_superuser] at hsuper ⊢
    simp [hsuper]

/-- Claim C6 witness: a concrete superuser with no profile and a role
that grants nothing is still allowed an arbitrary permission string. -/
theorem has_permission_superuser_override_witness :
    RoleBasedAccessControl.has_permission
      (.user { id := "root", is_superuser := true, erp_profile := none })
      "no.such.permission" = true :=
  has_permission_superuser_override
    (.user { id := "root", is_superuser := true, erp_profile := none }) rfl
    "no.such.permission"

/-- Claim C7: with a profile whose IP whitelist is empty, every IP string
(malformed ones included) is allowed; with a non-empty whitelist, an IP
is allowed iff it is a literal member. -/
theorem is_ip_allowed_spec (u : Principal) (p : UserERPProfile) (ip : String)
    (hp : u.erpProfile = some p) :
    (p.ip_whitelist = [] → SessionManager.is_ip_allowed u ip = true) ∧
    (p.ip_whitelist ≠ [] →
      (SessionManager.is_ip_allowed u ip = true ↔ ip ∈ p.ip_whitelist)) := by
  constructor
  · intro hempty
    simp [SessionManager.is_ip_allowed, hp, hempty]
  · intro hne
    have hni : p.ip_whitelist.isEmpty = false := by
      cases h : p.ip_whitelist with
      | nil => exact absurd h hne
      | cons a l => rfl
    simp [SessionManager.is_ip_allowed, hp, hni]

/-- Claim C7 witness: a concrete empty whitelist admits a malformed IP
string. -/
theorem is_ip_allowed_spec_witness :
    SessionManager.is_ip_allowed (.user (plainUser (plainProfile (mkRole []))))
      "not-an-ip!!" = true :=
  (is_ip_allowed_spec (.user (plainUser (plainProfile (mkRole []))))
    (plainProfile (mkRole [])) "not-an-ip!!" rfl).1 rfl

/-- Claim C1 counterexample: the concrete Monday-only profile has a
non-empty access-hours map with no entry for Tuesday, yet the check at a
Tuesday instant returns `false`, where the claim asserts `true`. -/
theorem weekday_absent_denies_cex :
    (hoursProfile [("monday", { startH := some 9, endH := some 17 })]).access_hours ≠ [] ∧
    (hoursProfile [("monday", { startH := some 9, endH := some 17 })]).access_hours.lookup
      "tuesday" = none ∧
    SessionManager.is_access_time_allowed mondayUser
      { weekday := "tuesday", hour := 10 } = false :=
  ⟨by decide, by decide, by decide⟩

/-- Claim C1 (amended): with a profile, an empty access-hours map allows
every time; a weekday absent from a non-empty map is denied; a weekday
entry allows exactly the hours between its bounds (defaults 0 and 23),
inclusive on both ends — concretely `{start 9, end 17}` allows hours 9
and 17 and denies hours 8 and 18. -/
theorem is_access_time_allowed_spec :
    (∀ (u : Principal) (p : UserERPProfile) (now : PyDateTime),
      u.erpProfile = some p →
      ((p.access_hours = [] → SessionManager.is_access_time_allowed u now = true) ∧
       (p.access_hours ≠ [] → p.access_hours.lookup now.weekday = none →
         SessionManager.is_access_time_allowed u now = false) ∧
       (∀ e, p.access_hours.lookup now.weekday = some e →
         (SessionManager.is_access_time_allowed u now = true ↔
           e.startH.getD 0 ≤ now.hour ∧ now.hour ≤ e.endH.getD 23))))
    ∧ SessionManager.is_access_time_allowed mondayUser { weekday := "monday", hour := 9 } = true
    ∧ SessionManager.is_access_time_allowed mondayUser { weekday := "monday", hour := 17 } = true
    ∧ SessionManager.is_access_time_allowed mondayUser { weekday := "monday", hour := 8 } = false
    ∧ SessionManager.is_access_time_allowed mondayUser { weekday := "monday", hour := 18 } = false := by
  refine ⟨?_, by decide, by decide, by decide, by decide⟩
  intro u p now hp
  refine ⟨?_, ?_, ?_⟩
  · intro hnil
    simp [SessionManager.is_access_time_allowed, hp, hnil]
  · intro hne hlook
    have hni : p.access_hours.isEmpty = false := by
      cases h : p.access_hours with
      | nil => exact absurd h hne
      | cons a l => rfl
    simp [SessionManager.is_access_time_allowed, hp, hni, hlook]
  · intro e hlook
    have hne : p.access_hours ≠ [] := by
      intro h
      rw [h] at hlook
      exact Option.noConfusion hlook
    have hni : p.access_hours.isEmpty = false := by
      cases h : p.access_hours with
      | nil => exact absurd h hne
      | cons a l => rfl
    simp [SessionManager.is_access_time_allowed, hp, hni, hlook]

/-- Claim C1 witness: the amended theorem applied at the Monday-only
profile on a Tuesday instant. -/
theorem is_access_time_allowed_spec_witness :
    SessionManager.is_access_time_allowed mondayUser
      { weekday := "tuesday", hour := 10 } = false :=
  ((is_access_time_allowed_spec.1 mondayUser
    (hoursProfile [("monday", { startH := some 9, endH := some 17 })])
    { weekday := "tuesday", hour := 10 } rfl).2.1 (by decide) rfl)

/-- Claim C10: a weekday entry with a missing `start` key defaults to
hour 0 and a missing `end` key to hour 23; concretely `{start 9}` admits
exactly hours 9 through 23 of the day and `{}` admits every hour of the
day. -/
theorem access_hours_defaults_spec :
    (∀ (u : Principal) (p : UserERPProfile) (now : PyDateTime) (e : HoursEntry),
      u.erpProfile = some p → p.access_hours.lookup now.weekday = some e →
      SessionManager.is_access_time_allowed u now =
        decide (e.startH.getD 0 ≤ now.hour ∧ now.hour ≤ e.endH.getD 23))
    ∧ (∀ h : Nat, SessionManager.is_access_time_allowed
        (.user (plainUser (hoursProfile [("monday", { startH := some 9, endH := none })])))
        { weekday := "monday", hour := h } = decide (9 ≤ h ∧ h ≤ 23))
    ∧ (∀ h : Nat, SessionManager.is_access_time_allowed
        (.user (plainUser (hoursProfile [("monday", { startH := none, endH := none })])))
        { weekday := "monday", hour := h } = decide (h ≤ 23)) := by
  refine ⟨?_, ?_, ?_⟩
  · intro u p now e hp hlook
    have hne : p.access_hours ≠ [] := by
      intro h
      rw [h] at hlook
      exact Option.noConfusion hlook
    have hni : p.access_hours.isEmpty = false := by
      cases h : p.access_hours with
      | nil => exact absurd h hne
      | cons a l => rfl
    simp [SessionManager.is_access_time_allowed, hp, hni, hlook]
  · intro h
    simp [SessionManager.is_access_time_allowed, Principal.erpProfile, plainUser,
      hoursProfile, List.lookup]
  · intro h
    simp [SessionManager.is_access_time_allowed, Principal.erpProfile, plainUser,
      hoursProfile, List.lookup]

/-- Claim C10 witness: the defaults rule applied at the Monday profile
with both bounds present, hour 10. -/
theorem access_hours_defaults_spec_witness :
    SessionManager.is_access_time_allowed mondayUser { weekday := "monday", hour := 10 } =
      decide ((9 : Nat) ≤ 10 ∧ (10 : Nat) ≤ 17) :=
  access_hours_defaults_spec.1 mondayUser
    (hoursProfile [("monday", { startH := some 9, endH := some 17 })])
    { weekday := "monday", hour := 10 } { startH := some 9, endH := some 17 } rfl rfl

/-- Claim C4: with a profile, the concurrency check passes iff the count
of unexpired sessions decoded to this user's id is strictly below the
profile ceiling; with ceiling 3 it passes on 2 active own sessions and
fails on 3; without a profile it passes. -/
theorem check_concurrent_sessions_spec :
    (∀ (u : RejlersUser) (p : UserERPProfile) (sessions : List DjangoSession)
      (nowTime : Nat), u.erp_profile = some p →
      (SessionManager.check_concurrent_sessions (.user u) sessions nowTime = true ↔
        sessions.countP (fun s => (s.auth_user_id == some u.id) &&
          decide (nowTime ≤ s.expire_date)) < p.max_concurrent_sessions))
    ∧ (∀ (u : RejlersUser) (sessions : List DjangoSession) (nowTime : Nat),
      u.erp_profile = none →
      SessionManager.check_concurrent_sessions (.user u) sessions nowTime = true)
    ∧ SessionManager.check_concurrent_sessions
        (.user (plainUser (plainProfile (mkRole [])))) twoActive 50 = true
    ∧ SessionManager.check_concurrent_sessions
        (.user (plainUser (plainProfile (mkRole [])))) threeActive 50 = false := by
  refine ⟨?_, ?_, by decide, by decide⟩
  · intro u p sessions nowTime hp
    simp [SessionManager.check_concurrent_sessions, Principal.erpProfile,
      Principal.idStr, hp, List.countP_filter]
  · intro u sessions nowTime hp
    simp [SessionManager.check_concurrent_sessions, Principal.erpProfile, hp]

/-- Claim C4 witness: the no-profile case applied at a concrete
profileless user, and the ceiling rule applied at the two-session store. -/
theorem check_concurrent_sessions_spec_witness :
    SessionManager.check_concurrent_sessions (.user noProfileUser) twoActive 50 = true ∧
    (SessionManager.check_concurrent_sessions
        (.user (plainUser (plainProfile (mkRole [])))) twoActive 50 = true ↔
      twoActive.countP (fun s => (s.auth_user_id == some "u1") &&
        decide ((50 : Nat) ≤ s.expire_date)) < 3) :=
  ⟨check_concurrent_sessions_spec.2.1 noProfileUser twoActive 50 rfl,
   check_concurrent_sessions_spec.1 (plainUser (plainProfile (mkRole [])))
     (plainProfile (mkRole [])) twoActive 50 rfl⟩

/-- Claim C3: in the composed gate (`enhanced_login_required` wrapping
`require_permission`), the IP check runs after authentication and the
concurrency check but before the access-hours and permission checks: an
authenticated request passing concurrency from a disallowed IP yields
exactly the IP-denial response; any request from a disallowed IP yields
one of the three early denials, never the permission denial and never
the wrapped view; concretely a `SUPER_ADMIN` principal (pattern `*`,
which grants `admin.users`) at IP `10.0.0.5` against allowlist
`["10.0.0.1"]` is denied with the IP response. -/
theorem access_gate_ip_precedence :
    (∀ (view_func : Request → Response) (perm : String) (request : Request),
      request.user.is_authenticated = true →
      SessionManager.check_concurrent_sessions request.user request.sessions
        request.nowTime = true →
      SessionManager.is_ip_allowed request.user (get_client_ip request) = false →
      enhanced_login_required (require_permission perm view_func) request =
        Response.json 403 [("error", "Access denied from this IP address"),
          ("ip", get_client_ip request)])
    ∧ (∀ (view_func : Request → Response) (perm : String) (request : Request),
      SessionManager.is_ip_allowed request.user (get_client_ip request) = false →
      (enhanced_login_required (require_permission perm view_func) request =
          Response.redirect "/login/" ∨
        enhanced_login_required (require_permission perm view_func) request =
          Response.json 429 [("error", "Maximum concurrent sessions exceeded"),
            ("action", "logout_other_sessions")] ∨
        enhanced_login_required (require_permission perm view_func) request =
          Response.json 403 [("error", "Access denied from this IP address"),
            ("ip", get_client_ip request)]))
    ∧ (RoleBasedAccessControl.has_permission scenCPrincipal "admin.users" = true ∧
       enhanced_login_required (require_permission "admin.users" viewOk) scenCRequest =
         Response.json 403 [("error", "Access denied from this IP address"),
           ("ip", "10.0.0.5")]) := by
  refine ⟨?_, ?_, by decide, by decide⟩
  · intro view_func perm request hauth hconc hip
    simp [enhanced_login_required, hauth, hconc, hip]
  · intro view_func perm request hip
    cases hauth : request.user.is_authenticated with
    | false => exact Or.inl (by simp [enhanced_login_required, hauth])
    | true =>
      cases hconc : SessionManager.check_concurrent_sessions request.user
          request.sessions request.nowTime with
      | false =>
        exact Or.inr (Or.inl (by simp [enhanced_login_required, hauth, hconc]))
      | true =>
        exact Or.inr (Or.inr (by simp [enhanced_login_required, hauth, hconc, hip]))

/-- Claim C3 witness: the IP-precedence rule applied at the concrete
scenario-C request. -/
theorem access_gate_ip_precedence_witness :
    enhanced_login_required (require_permission "admin.users" viewOk) scenCRequest =
      Response.json 403 [("error", "Access denied from this IP address"),
        ("ip", get_client_ip scenCRequest)] :=
  access_gate_ip_precedence.1 viewOk "admin.users" scenCRequest rfl (by decide) (by decide)

/-- Claim C8 counterexample: the enhanced gate answers an unauthenticated
request with a redirect to `/login/`, not with the 401 JSON body the
claim prescribes for `AuthenticationRequired`. -/
theorem auth_deny_redirect_cex :
    enhanced_login_required viewOk anonRequest = Response.redirect "/login/" ∧
    enhanced_login_required viewOk anonRequest ≠
      Response.json 401 [("error", "Authentication required"), ("redirect", "/login/")] :=
  ⟨by decide, by decide⟩

/-- Claim C8 (amended): the permission decorator maps authentication
failure to 401 `{error, redirect}` and permission failure to 403
`{error, required_permission}`; the enhanced gate maps an
unauthenticated request to a redirect to `/login/` (not a 401 JSON),
concurrency failure to 429 `{error, action: logout_other_sessions}`, IP
failure to 403 `{error, ip}` and access-hours failure to 403 `{error}`. -/
theorem deny_response_mapping :
    (∀ (view_func : Request → Response) (perm : String) (request : Request),
      request.user.is_authenticated = false →
      require_permission perm view_func request =
        Response.json 401 [("error", "Authentication required"), ("redirect", "/login/")])
    ∧ (∀ (view_func : Request → Response) (perm : String) (request : Request),
      request.user.is_authenticated = true →
      RoleBasedAccessControl.has_permission request.user perm = false →
      require_permission perm view_func request =
        Response.json 403 [("error", "Insufficient permissions"),
          ("required_permission", perm)])
    ∧ (∀ (view_func : Request → Response) (request : Request),
      request.user.is_authenticated = false →
      enhanced_login_required view_func request = Response.redirect "/login/")
    ∧ (∀ (view_func : Request → Response) (request : Request),
      request.user.is_authenticated = true →
      SessionManager.check_concurrent_sessions request.user request.sessions
        request.nowTime = false →
      enhanced_login_required view_func request =
        Response.json 429 [("error", "Maximum concurrent sessions exceeded"),
          ("action", "logout_other_sessions")])
    ∧ (∀ (view_func : Request → Response) (request : Request),
      request.user.is_authenticated = true →
      SessionManager.check_concurrent_sessions request.user request.sessions
        request.nowTime = true →
      SessionManager.is_ip_allowed request.user (get_client_ip request) = false →
      enhanced_login_required view_func request =
        Response.json 403 [("error", "Access denied from this IP address"),
          ("ip", get_client_ip request)])
    ∧ (∀ (view_func : Request → Response) (request : Request),
      request.user.is_authenticated = true →
      SessionManager.check_concurrent_sessions request.user request.sessions
        request.nowTime = true →
      SessionManager.is_ip_allowed request.user (get_client_ip request) = true →
      SessionManager.is_access_time_allowed request.user request.now = false →
      enhanced_login_required view_func request =
        Response.json 403 [("error", "Access denied outside allowed hours")]) := by
  refine ⟨?_, ?_, ?_, ?_, ?_, ?_⟩
  · intro view_func perm request hauth
    simp [require_permission, hauth]
  · intro view_func perm request hauth hperm
    simp [require_permission, hauth, hperm]
  · intro view_func request hauth
    simp [enhanced_login_required, hauth]
  · intro view_func request hauth hconc
    simp [enhanced_login_required, hauth, hconc]
  · intro view_func request hauth hconc hip
    simp [enhanced_login_required, hauth, hconc, hip]
  · intro view_func request hauth hconc hip hhours
    simp [enhanced_login_required, hauth, hconc, hip, hhours]

/-- Claim C8 witness: the 429 mapping applied at the concrete request
with three active sessions against a ceiling of 3. -/
theorem deny_response_mapping_witness :
    enhanced_login_required viewOk busyRequest =
      Response.json 429 [("error", "Maximum concurrent sessions exceeded"),
        ("action", "logout_other_sessions")] :=
  deny_response_mapping.2.2.2.1 viewOk busyRequest rfl (by decide)

/-- The seeding loop only appends to the role table: existing rows stay. -/
theorem seedLoop_store_mono (configs : List ERPRole) :
    ∀ (created store : List ERPRole) (r : ERPRole), r ∈ store →
      r ∈ (seedLoop configs (created, store)).2 := by
  induction configs with
  | nil =>
    intro created store r h
    exact h
  | cons cfg rest ih =>
    intro created store r h
    simp only [seedLoop]
    cases hf : store.find? (fun x => x.code == cfg.code) with
    | some x => exact ih created store r h
    | none => exact ih (created ++ [cfg]) (store ++ [cfg]) r (by simp [h])

/-- A code already present in the table keeps both its presence and its
row count across the seeding loop (`get_or_create` never duplicates). -/
theorem seedLoop_count_existing (configs : List ERPRole) :
    ∀ (created store : List ERPRole) (code : String), hasCode store code = true →
      hasCode (seedLoop configs (created, store)).2 code = true ∧
      (seedLoop configs (created, store)).2.countP (fun r => r.code == code) =
        store.countP (fun r => r.code == code) := by
  induction configs with
  | nil =>
    intro created store code h
    exact ⟨h, rfl⟩
  | cons cfg rest ih =>
    intro created store code h
    simp only [seedLoop]
    cases hf : store.find? (fun x => x.code == cfg.code) with
    | some x => exact ih created store code h
    | none =>
      have hall := List.find?_eq_none.mp hf
      have hex : ∃ r ∈ store, (r.code == code) = true := by
        simpa [hasCode, List.any_eq_true] using h
      obtain ⟨r0, hr0mem, hr0c⟩ := hex
      have hne : (cfg.code == code) = false := by
        have h1 : r0.code = code := eq_of_beq hr0c
        have h2 : ¬(r0.code == cfg.code) = true := by simpa using hall r0 hr0mem
        have h3 : cfg.code ≠ code := by
          intro hh
          exact h2 (beq_iff_eq.mpr (by rw [h1, hh]))
        exact beq_eq_false_iff_ne.mpr h3
      have hcode2 : hasCode (store ++ [cfg]) code = true := by
        simp only [hasCode, List.any_eq_true] at h ⊢
        obtain ⟨r1, hm, hc⟩ := h
        exact ⟨r1, by simp [hm], hc⟩
      have hrec := ih (created ++ [cfg]) (store ++ [cfg]) code hcode2
      refine ⟨hrec.1, ?_⟩
      rw [hrec.2, List.countP_append]
      simp [hne]

/-- After the seeding loop, every configured code is present in the
table. -/
theorem seedLoop_all_codes (configs : List ERPRole) :
    ∀ (created store : List ERPRole) (cfg : ERPRole), cfg ∈ configs →
      hasCode (seedLoop configs (created, store)).2 cfg.code = true := by
  induction configs with
  | nil =>
    intro _ _ _ h
    cases h
  | cons c rest ih =>
    intro created store cfg hmem
    simp only [seedLoop]
    cases hf : store.find? (fun x => x.code == c.code) with
    | some x =>
      rcases List.mem_cons.mp hmem with heq | htail
      · subst heq
        have hx := List.mem_of_find?_eq_some hf
        have hpx : (x.code == cfg.code) = true := by
          simpa using List.find?_some hf
        have hpres : hasCode store cfg.code = true := by
          simp only [hasCode, List.any_eq_true]
          exact ⟨x, hx, hpx⟩
        exact (seedLoop_count_existing rest created store cfg.code hpres).1
      · exact ih created store cfg htail
    | none =>
      rcases List.mem_cons.mp hmem with heq | htail
      · subst heq
        have hpres : hasCode (store ++ [cfg]) cfg.code = true := by
          simp [hasCode]
        exact (seedLoop_count_existing rest (created ++ [cfg]) (store ++ [cfg])
          cfg.code hpres).1
      · exact ih (created ++ [c]) (store ++ [c]) cfg htail

/-- When every configured code is already present, the seeding loop is a
no-op: it creates nothing and leaves the table unchanged. -/
theorem seedLoop_noop (configs : List ERPRole) :
    ∀ (created store : List ERPRole),
      (∀ cfg ∈ configs, hasCode store cfg.code = true) →
      seedLoop configs (created, store) = (created, store) := by
  induction configs with
  | nil =>
    intro created store _
    rfl
  | cons c rest ih =>
    intro created store hall
    have hc : ∃ r ∈ store, (r.code == c.code) = true := by
      simpa [hasCode, List.any_eq_true] using hall c (List.mem_cons_self c rest)
    simp only [seedLoop]
    cases hf : store.find? (fun x => x.code == c.code) with
    | some x => exact ih created store (fun cfg h => hall cfg (List.mem_cons_of_mem c h))
    | none =>
      exfalso
      obtain ⟨r0, hmem, hr0⟩ := hc
      exact absurd hr0 (by simpa using List.find?_eq_none.mp hf r0 hmem)

/-- Claim C9: seeding preserves every pre-existing role row and the row
count of every pre-existing code (no duplicate, row untouched), a second
run on the resulting table creates nothing, a run on a table that
already has a `VIEWER` row creates exactly the other five roles, and on
an empty table the six created roles carry exactly the literal
permission-pattern lists of the source. -/
theorem create_default_roles_spec :
    (∀ (store : List ERPRole) (r : ERPRole), r ∈ store →
      r ∈ (create_default_roles store).2)
    ∧ (∀ (store : List ERPRole) (code : String), hasCode store code = true →
      (create_default_roles store).2.countP (fun r => r.code == code) =
        store.countP (fun r => r.code == code))
    ∧ (∀ store : List ERPRole,
      (create_default_roles (create_default_roles store).2).1 = [])
    ∧ ((create_default_roles [legacyViewer]).1.map (fun r => r.code) =
      ["SUPER_ADMIN", "PROJECT_MANAGER", "SENIOR_ENGINEER", "ENGINEER", "ANALYST"])
    ∧ ((create_default_roles []).1.map (fun r => (r.code, r.permissions)) =
      [("SUPER_ADMIN", ["*"]),
       ("PROJECT_MANAGER", ["project.*", "drawing.read", "drawing.comment",
         "drawing.approve", "simulation.read", "team.read", "reports.generate",
         "ai.query"]),
       ("SENIOR_ENGINEER", ["drawing.*", "simulation.*", "ai.query", "ai.advanced",
         "project.read", "project.modify", "safety.analyze", "compliance.check",
         "reports.generate"]),
       ("ENGINEER", ["drawing.read", "drawing.upload", "drawing.analyze",
         "drawing.comment", "simulation.create", "simulation.read", "simulation.run",
         "ai.query", "project.read", "reports.generate"]),
       ("ANALYST", ["drawing.read", "simulation.read", "ai.query", "reports.generate",
         "data.export", "project.read"]),
       ("VIEWER", ["drawing.read", "simulation.read", "project.read",
         "reports.generate"])]) := by
  refine ⟨?_, ?_, ?_, by decide, by decide⟩
  · intro store r h
    exact seedLoop_store_mono roles_config [] store r h
  · intro store code h
    exact (seedLoop_count_existing roles_config [] store code h).2
  · intro store
    have hall : ∀ cfg ∈ roles_config,
        hasCode (create_default_roles store).2 cfg.code = true :=
      fun cfg hc => seedLoop_all_codes roles_config [] store cfg hc
    have hnoop := seedLoop_noop roles_config [] (create_default_roles store).2 hall
    show (seedLoop roles_config ([], (create_default_roles store).2)).1 = []
    rw [hnoop]

/-- Claim C9 witness: a pre-existing divergent `VIEWER` row survives
seeding and its row count is preserved. -/
theorem create_default_roles_spec_witness :
    legacyViewer ∈ (create_default_roles [legacyViewer]).2 ∧
    (create_default_roles [legacyViewer]).2.countP (fun r => r.code == "VIEWER") =
      [legacyViewer].countP (fun r => r.code == "VIEWER") :=
  ⟨create_default_roles_spec.1 [legacyViewer] legacyViewer (by simp),
   create_default_roles_spec.2.1 [legacyViewer] "VIEWER" (by decide)⟩

end EDRS
